import Mathlib

/-! # Role-based message relay bot: a shallow embedding of `main.cpp` and `roles.h`

The handlers of `main.cpp` are translated into total Lean functions over an
explicit world state.

* The global tables (`ROLE_MAP`, `ROLE_DISPLAY_NAMES`, `TRIGGER_TARGET_MAP`,
  `SENDING_ROLE_TARGETS`) are association lists gathered in `Config`; the list
  order stands for the iteration order of the `std::unordered_map`, which the
  C++ standard leaves unspecified.  `shipped` is the configuration of the
  repository (`roles.h` plus the initialisers of `main.cpp`).  Likewise a
  `std::unordered_set` is the list of its elements, and `target_ids_set` lists
  them in order of first insertion; what is proved about recipients is stated
  through membership and through the list handed to `forward_message`.
* `operator[]` on a missing key inserts a value-initialised entry.  A later
  lookup of that key yields the same empty value and `get_user_roles` skips a
  role without members, so the insertion cannot be observed and the tables are
  kept immutable; `index` returns the empty value for a missing key.
* The mutable globals `user_data_store` and `muted_users` are fields of `World`.
* Every Bot API call, every entry into `forward_message` and every
  `save_user_data()` is appended to `World.trace`.  A Bot API call may throw;
  whether the call attempted at a given trace length throws is decided by the
  oracle `Env.throws`, over which the theorems quantify.
* A block of C++ code yields a `Res`: the world it leaves and whether it was
  left by an exception.  `try_catch` is a `catch (const std::exception&)` whose
  handler only logs.
* `spdlog` calls are not modelled.
* `std::string` is embedded as `String`; `::tolower` (C locale) is
  `Char.toLower`, both change exactly the letters `A`-`Z`.  Byte offsets of
  `substr`/`find` are character offsets here, which agree on ASCII data such
  as the callback data the bot issues.
-/

namespace Relay

/-! ## Data model -/

/-- The fields of `TgBot::User` the handlers read. -/
structure User where
  id : Int
  username : String
  firstName : String
  lastName : String
deriving DecidableEq, Repr

/-- The fields of `TgBot::Document` the handlers read. -/
structure Document where
  fileId : String
  fileName : String
deriving DecidableEq, Repr

/-- The fields of `TgBot::Message` the handlers read; `chat_id` is
`message->chat->id` and `from_` is `message->from`. -/
structure Message where
  messageId : Int
  from_ : User
  chat_id : Int
  text : String
  document : Option Document
  caption : String
deriving DecidableEq, Repr

/-- The fields of `TgBot::CallbackQuery` the handler reads; `chat_id` is
`query->message->chat->id`. -/
structure CallbackQuery where
  chat_id : Int
  data : String
deriving DecidableEq, Repr

/-- `TgBot::InlineKeyboardButton`. -/
structure InlineKeyboardButton where
  text : String
  callbackData : String
deriving DecidableEq, Repr

/-- `TgBot::InlineKeyboardMarkup`: rows of buttons. -/
structure InlineKeyboardMarkup where
  inlineKeyboard : List (List InlineKeyboardButton)
deriving DecidableEq, Repr

/-- The Bot API calls made by `main.cpp`, with the arguments the source passes
(an omitted keyboard is `none`, an omitted parse mode is the empty string). -/
inductive ApiCall where
  | sendMessage (chatId : Int) (text : String)
      (replyMarkup : Option InlineKeyboardMarkup) (parseMode : String)
  | sendDocument (chatId : Int) (fileId : String) (caption : String) (parseMode : String)
  | forwardMessage (chatId : Int) (fromChatId : Int) (messageId : Int)
deriving DecidableEq, Repr

/-- One observable step of a handler. -/
inductive Event where
  /-- A Bot API call was attempted; `returned = false` when it threw. -/
  | api (call : ApiCall) (returned : Bool)
  /-- The function `forward_message` was entered with these arguments. -/
  | forward_message (message : Message) (target_ids : List Int) (sender_role : String)
  /-- The function `save_user_data` was called. -/
  | save_user_data
deriving DecidableEq, Repr

/-- The mutable globals of `main.cpp` together with the trace of observable
steps and the number of calls made to `get_uuid` so far. -/
structure World where
  user_data_store : List (String × Int)
  muted_users : List Int
  uuids_issued : Nat
  trace : List Event
deriving DecidableEq, Repr

/-- What lies outside the program: the failure oracle of the Bot API, the
generator behind `uuid_generate` (its n-th result), and the truth value of a
`std::string` used as a condition in `if (message->text)`, a conversion the
sources under `src/` do not declare. -/
structure Env where
  throws : Nat → Bool
  uuid_generate : Nat → String
  text_as_bool : String → Bool

/-- The static tables of `main.cpp`. -/
structure Config where
  ROLE_MAP : List (String × List Int)
  ROLE_DISPLAY_NAMES : List (String × String)
  TRIGGER_TARGET_MAP : List (String × List String)
  SENDING_ROLE_TARGETS : List (String × List String)

/-- The outcome of a block of code: the world after it and whether it was left
by an exception. -/
structure Res where
  world : World
  threw : Bool
deriving DecidableEq, Repr

/-! ## `roles.h` -/

def WRITER_IDS : List Int :=
  [7491629866, 7030185248, 1414370194, 585812065,
   6969704654, 1162719050, 6377619159, 935602501,
   6702007291, 6554665]

def MCQS_TEAM_IDS : List Int := [6690281336, 11111, 65456664]

def CHECKER_TEAM_IDS : List Int := [591536381, 1414370194, 65556765, 523278185, 933155332]

def WORD_TEAM_IDS : List Int := [7491629866, 758645645, 65557544]

def DESIGN_TEAM_IDS : List Int := [7030185248, 7354567, 65445]

def KING_TEAM_IDS : List Int := [56676, 73545678, 6898449897]

def TARA_TEAM_IDS : List Int := [137745730, 6177929931, 333135898, 6898449897]

def MIND_MAP_FORM_CREATOR_IDS : List Int := [1703780092, 7655565]

/-! ## Tables of `main.cpp` -/

def ROLE_DISPLAY_NAMES : List (String × String) :=
  [("writer", "Writer Team"),
   ("mcqs_team", "MCQs Team"),
   ("checker_team", "Editor Team"),
   ("word_team", "Digital Writers"),
   ("design_team", "Design Team"),
   ("king_team", "Admin Team"),
   ("tara_team", "Tara Team"),
   ("mind_map_form_creator", "Mind Map & Form Creation Team")]

def TRIGGER_TARGET_MAP : List (String × List String) :=
  [("-w", ["writer"]),
   ("-e", ["checker_team"]),
   ("-mcq", ["mcqs_team"]),
   ("-d", ["word_team"]),
   ("-de", ["design_team"]),
   ("-mf", ["mind_map_form_creator"]),
   ("-c", ["checker_team"])]

def SENDING_ROLE_TARGETS : List (String × List String) :=
  [("writer", ["mcqs_team", "checker_team", "tara_team"]),
   ("mcqs_team", ["design_team", "tara_team"]),
   ("checker_team", ["tara_team", "word_team"]),
   ("word_team", ["tara_team"]),
   ("design_team", ["tara_team", "king_team"]),
   ("king_team", ["tara_team"]),
   ("tara_team", ["writer", "mcqs_team", "checker_team", "word_team", "design_team",
                  "king_team", "tara_team", "mind_map_form_creator"]),
   ("mind_map_form_creator", ["design_team", "tara_team"])]

/-- The tables of `main.cpp` over a given role directory: `ROLE_MAP` pairs each
role name with its id set in the order of the initialiser. -/
def config (writer mcqs checker word design king tara mind_map : List Int) : Config where
  ROLE_MAP :=
    [("writer", writer),
     ("mcqs_team", mcqs),
     ("checker_team", checker),
     ("word_team", word),
     ("design_team", design),
     ("king_team", king),
     ("tara_team", tara),
     ("mind_map_form_creator", mind_map)]
  ROLE_DISPLAY_NAMES := ROLE_DISPLAY_NAMES
  TRIGGER_TARGET_MAP := TRIGGER_TARGET_MAP
  SENDING_ROLE_TARGETS := SENDING_ROLE_TARGETS

/-- The configuration of the repository: `main.cpp` over the sets of `roles.h`. -/
def shipped : Config :=
  config WRITER_IDS MCQS_TEAM_IDS CHECKER_TEAM_IDS WORD_TEAM_IDS DESIGN_TEAM_IDS
    KING_TEAM_IDS TARA_TEAM_IDS MIND_MAP_FORM_CREATOR_IDS

/-! ## Containers and strings -/

/-- The value of `table[key]`: the mapped value, or the value-initialised
`dflt` when the key is missing. -/
def index {α : Type} (table : List (String × α)) (key : String) (dflt : α) : α :=
  (table.lookup key).getD dflt

/-- The call `user_data_store.find(key)`: the mapped id when the key is present. -/
def store_find (store : List (String × Int)) (key : String) : Option Int :=
  store.lookup key

/-- The assignment `user_data_store[key] = id`: afterwards the key maps to `id`
and every other key is as before. -/
def store_assign (store : List (String × Int)) (key : String) (id : Int) :
    List (String × Int) :=
  (key, id) :: store.filter (fun p => p.1 != key)

/-- The call `std::unordered_set::insert`: no effect when the id is present. -/
def set_insert (s : List Int) (id : Int) : List Int :=
  if id ∈ s then s else s ++ [id]

/-- The call `std::transform(..., ::tolower)` over a whole string. -/
def tolower (s : String) : String :=
  String.mk (s.data.map Char.toLower)

/-- The test `data.find(p) == 0`: `data` starts with `p`. -/
def starts_with (data p : String) : Bool :=
  p.data.isPrefixOf data.data

/-- The call `data.substr(pos)`: throws `std::out_of_range` (here `none`) when
`pos` exceeds the length, otherwise yields the rest from `pos` on. -/
def substr (data : String) (pos : Nat) : Option String :=
  if pos > data.length then none else some (String.mk (data.data.drop pos))

/-! ## Helper functions of `main.cpp` -/

def get_user_roles (cfg : Config) (user_id : Int) : List String :=
  (cfg.ROLE_MAP.filter (fun p => decide (user_id ∈ p.2))).map Prod.fst

def get_display_name (user : User) : String :=
  if user.username ≠ "" then
    "@" ++ user.username
  else
    if user.lastName ≠ "" then user.firstName ++ (" " ++ user.lastName) else user.firstName

/-- The function `get_uuid`: the next identifier of the generator. -/
def get_uuid (env : Env) (w : World) : String × World :=
  (env.uuid_generate w.uuids_issued, { w with uuids_issued := w.uuids_issued + 1 })

/-! ## Control flow -/

/-- A block that ends normally in world `w`. -/
def done (w : World) : Res := { world := w, threw := false }

/-- One Bot API call: it is recorded in the trace and throws when the oracle
says so. -/
def api (env : Env) (w : World) (call : ApiCall) : Res :=
  { world := { w with trace := w.trace ++ [Event.api call (!env.throws w.trace.length)] }
    threw := env.throws w.trace.length }

/-- The block `try { ... } catch (const std::exception& e) { spdlog::error(...); }`:
the exception ends there. -/
def try_catch (r : Res) : Res := { r with threw := false }

/-- Appends one event to the trace. -/
def record (w : World) (e : Event) : World := { w with trace := w.trace ++ [e] }

/-! ## Forwarding functions -/

/-- The caption computed at the head of `forward_message`. -/
def forward_caption (cfg : Config) (env : Env) (message : Message) (sender_role : String) :
    String :=
  let sender_display_name := index cfg.ROLE_DISPLAY_NAMES sender_role ""
  let username_display := get_display_name message.from_
  if message.document.isSome then
    "🔄 *This document was sent by **" ++ username_display ++ " (" ++ sender_display_name ++ ")**.*"
  else if env.text_as_bool message.text then
    "🔄 *This message was sent by **" ++ username_display ++ " (" ++ sender_display_name ++ ")**.*"
  else
    "🔄 *This message was sent by **" ++ username_display ++ " (" ++ sender_display_name ++ ")**.*"

/-- The Bot API call that the loop body of `forward_message` makes for one
recipient. -/
def forward_call (env : Env) (message : Message) (caption : String) (user_id : Int) : ApiCall :=
  match message.document with
  | some document =>
    ApiCall.sendDocument user_id document.fileId
      (caption ++ (if message.caption = "" then "" else "\n\n" ++ message.caption)) "Markdown"
  | none =>
    if env.text_as_bool message.text then
      ApiCall.sendMessage user_id (caption ++ "\n\n" ++ message.text) none "Markdown"
    else
      ApiCall.forwardMessage user_id message.chat_id message.messageId

/-- The loop `for (const auto& user_id : target_ids) { try { ... } catch ... }`
of `forward_message`. -/
def forward_loop (env : Env) (message : Message) (caption : String) :
    List Int → World → Res
  | [], w => done w
  | user_id :: rest, w =>
    let r := try_catch (api env w (forward_call env message caption user_id))
    if r.threw then r else forward_loop env message caption rest r.world

def forward_message (cfg : Config) (env : Env) (w : World) (message : Message)
    (target_ids : List Int) (sender_role : String) : Res :=
  forward_loop env message (forward_caption cfg env message sender_role) target_ids
    (record w (Event.forward_message message target_ids sender_role))

/-! ## Handlers -/

def onStart (env : Env) (w : World) (message : Message) : Res :=
  if message.from_.username = "" then
    api env w (ApiCall.sendMessage message.chat_id
      "Please set a Telegram username in your profile to use specific commands like `-@username`."
      none "Markdown")
  else
    let username_lower := tolower message.from_.username
    let w1 := record
      { w with user_data_store := store_assign w.user_data_store username_lower message.from_.id }
      Event.save_user_data
    let display_name := get_display_name message.from_
    let welcome_text := "Hello, " ++ display_name ++ "! Welcome to the Team Communication Bot.\n\n" ++
      "Feel free to send messages using the available commands."
    api env w1 (ApiCall.sendMessage message.chat_id welcome_text none "Markdown")

/-- The notice sent to a muted sender. -/
def mute_notice : String := "You have been muted and cannot send messages through this bot."

/-- The block `// Update user data` of the message handler. -/
def update_user_data (w : World) (message : Message) : World :=
  if message.from_.username ≠ "" then
    let username_lower := tolower message.from_.username
    if (store_find w.user_data_store username_lower).isNone ||
        index w.user_data_store username_lower 0 != message.from_.id then
      record
        { w with user_data_store := store_assign w.user_data_store username_lower message.from_.id }
        Event.save_user_data
    else w
  else w

/-- The keyboard of the branch `roles.empty()`: one row with the confirm and
the cancel button, both carrying `uuid_str`. -/
def no_role_keyboard (uuid_str : String) : InlineKeyboardMarkup :=
  let callback_confirm := "confirm_no_role:" ++ uuid_str
  let callback_cancel := "cancel:" ++ uuid_str
  let confirmButton : InlineKeyboardButton :=
    { text := "✅ Send feedback", callbackData := callback_confirm }
  let cancelButton : InlineKeyboardButton :=
    { text := "❌ Cancel", callbackData := callback_cancel }
  { inlineKeyboard := [[confirmButton, cancelButton]] }

/-- The button that the loop over `roles` builds for one role. -/
def role_button (cfg : Config) (role : String) : InlineKeyboardButton :=
  { text := index cfg.ROLE_DISPLAY_NAMES role "", callbackData := "role:" ++ role }

/-- The keyboard of the branch `roles.size() > 1`: one row holding a button per
role followed by the cancel button. -/
def role_keyboard (cfg : Config) (roles : List String) : InlineKeyboardMarkup :=
  let buttons := roles.map (role_button cfg)
  let cancelButton : InlineKeyboardButton :=
    { text := "❌ Cancel", callbackData := "cancel_role_selection" }
  { inlineKeyboard := [buttons ++ [cancelButton]] }

/-- The set `target_ids_set` of the branch `roles.size() == 1`, as the list of
its elements in order of first insertion. -/
def target_ids_set (cfg : Config) (from_id : Int) (target_roles : List String) : List Int :=
  target_roles.foldl
    (fun acc role =>
      (index cfg.ROLE_MAP role []).foldl
        (fun acc id => if id ≠ from_id then set_insert acc id else acc) acc)
    []

/-- The confirmation sent to the sender at the end of the branch
`roles.size() == 1`. -/
def sent_confirmation (cfg : Config) (env : Env) (message : Message) (sender_role : String) :
    String :=
  let sender_display_name := index cfg.ROLE_DISPLAY_NAMES sender_role ""
  match message.document with
  | some document =>
    "✅ *Your PDF `" ++ document.fileName ++ "` has been sent from **" ++ sender_display_name ++
      "** to the respective teams.*"
  | none =>
    if env.text_as_bool message.text then
      "✅ *Your message has been sent from **" ++ sender_display_name ++
        "** to the respective teams.*"
    else
      "✅ *Your message has been sent from **" ++ sender_display_name ++
        "** to the respective teams.*"

/-- The body of the `try` block of the `onAnyMessage` handler.  The three role
branches are told apart by the shape of `roles`: empty, one element
(`roles[0]`), more than one. -/
def onAnyMessage_body (cfg : Config) (env : Env) (w : World) (message : Message) : Res :=
  if message.text = "" ∧ message.document.isNone then
    done w
  else if message.from_.id ∈ w.muted_users then
    api env w (ApiCall.sendMessage message.chat_id mute_notice none "")
  else
    let w1 := update_user_data w message
    match get_user_roles cfg message.from_.id with
    | [] =>
      let confirmation_text :=
        "You have no roles. Do you want to send this as *anonymous feedback* to all teams?"
      let (uuid_str, w2) := get_uuid env w1
      api env w2 (ApiCall.sendMessage message.chat_id confirmation_text
        (some (no_role_keyboard uuid_str)) "Markdown")
    | [sender_role] =>
      let target_roles := index cfg.SENDING_ROLE_TARGETS sender_role []
      let target_ids := target_ids_set cfg message.from_.id target_roles
      let r := forward_message cfg env w1 message target_ids sender_role
      if r.threw then r
      else
        api env r.world (ApiCall.sendMessage message.chat_id
          (sent_confirmation cfg env message sender_role) none "Markdown")
    | roles =>
      api env w1 (ApiCall.sendMessage message.chat_id
        "You have multiple roles. Please choose which role you want to use to send this message:"
        (some (role_keyboard cfg roles)) "Markdown")

/-- The `onAnyMessage` handler: its body inside `try`/`catch`. -/
def onAnyMessage (cfg : Config) (env : Env) (w : World) (message : Message) : Res :=
  try_catch (onAnyMessage_body cfg env w message)

/-- The body of the `try` block of the `onCallbackQuery` handler. -/
def onCallbackQuery_body (cfg : Config) (env : Env) (w : World) (query : CallbackQuery) : Res :=
  let data := query.data
  if starts_with data "role:" then
    match substr data 5 with
    | none => { world := w, threw := true }
    | some selected_role =>
      api env w (ApiCall.sendMessage query.chat_id
        ("Write your message for the " ++ index cfg.ROLE_DISPLAY_NAMES selected_role "" ++ ".")
        none "Markdown")
  else if data = "cancel_role_selection" then
    api env w (ApiCall.sendMessage query.chat_id "Operation cancelled." none "")
  else if starts_with data "confirm_no_role:" then
    match substr data 17 with
    | none => { world := w, threw := true }
    | some _confirmation_uuid =>
      api env w (ApiCall.sendMessage query.chat_id
        "✅ *Your anonymous feedback has been sent to all teams.*" none "Markdown")
  else if starts_with data "cancel:" then
    api env w (ApiCall.sendMessage query.chat_id "Operation cancelled." none "")
  else
    done w

/-- The `onCallbackQuery` handler: its body inside `try`/`catch`. -/
def onCallbackQuery (cfg : Config) (env : Env) (w : World) (query : CallbackQuery) : Res :=
  try_catch (onCallbackQuery_body cfg env w query)

/-! ## Observations on traces -/

/-- The events a handler added when it took world `w` to world `w2`. -/
def new_events (w w2 : World) : List Event :=
  w2.trace.drop w.trace.length

/-- The argument triples of the entries into `forward_message` found in a trace. -/
def forward_calls : List Event → List (Message × List Int × String)
  | [] => []
  | Event.forward_message message target_ids sender_role :: rest =>
    (message, target_ids, sender_role) :: forward_calls rest
  | _ :: rest => forward_calls rest

/-- The chat a Bot API call is addressed to. -/
def ApiCall.chat : ApiCall → Int
  | ApiCall.sendMessage chatId _ _ _ => chatId
  | ApiCall.sendDocument chatId _ _ _ => chatId
  | ApiCall.forwardMessage chatId _ _ => chatId

/-- The Bot API calls attempted in a trace, in order. -/
def api_calls : List Event → List ApiCall
  | [] => []
  | Event.api call _ :: rest => call :: api_calls rest
  | _ :: rest => api_calls rest

/-! ## Specification-side observations -/

/-- The attempts `forward_loop` adds: one per recipient, in order, numbered from
trace length `n`. -/
def attempts (env : Env) (message : Message) (caption : String) : List Int → Nat → List Event
  | [], _ => []
  | user_id :: rest, n =>
    Event.api (forward_call env message caption user_id) (!env.throws n) ::
      attempts env message caption rest (n + 1)

/-- The chats of the Bot API calls of a trace that returned without throwing. -/
def delivered : List Event → List Int
  | [] => []
  | Event.api call true :: rest => call.chat :: delivered rest
  | _ :: rest => delivered rest

/-- The events added by the block `// Update user data` of the message handler. -/
def refresh_events (w : World) (message : Message) : List Event :=
  new_events w (update_user_data w message)

/-- Whether an event is a `sendMessage` call whose text is the mute notice. -/
def is_mute_notice : Event → Bool
  | Event.api (ApiCall.sendMessage _ text _ _) _ => text == mute_notice
  | _ => false

/-- The first character of a string, if any. -/
def first_char (s : String) : Option Char := s.data.head?

/-- The local `confirmation_uuid` of the `confirm_no_role:` branch of the
callback handler: `data.substr(17)`. -/
def confirmation_uuid (data : String) : Option String := substr data 17

/-! ## Concrete inputs -/

/-- An environment in which no Bot API call throws, the n-th identifier is
`n + 1` letters `a`, and a text counts as true when it is not empty. -/
def env0 : Env :=
  { throws := fun _ => false
    uuid_generate := fun n => String.mk (List.replicate (n + 1) 'a')
    text_as_bool := fun s => s != "" }

/-- As `env0`, but the Bot API call attempted at trace length 2 throws. -/
def env_fail2 : Env := { env0 with throws := fun n => n == 2 }

/-- The world at start-up with empty stores. -/
def w0 : World := { user_data_store := [], muted_users := [], uuids_issued := 0, trace := [] }

/-- The world `w0` after member 1 was muted and two identifiers were issued. -/
def w_muted : World := { w0 with muted_users := [1], uuids_issued := 2 }

/-- The role directory WRITER={1,2}, MCQS={3}, CHECKER={4}, TARA={5}, the other
roles without members. -/
def scenario : Config := config [1, 2] [3] [4] [] [] [] [5] []

/-- A text message from member 1 with handle `Alice`. -/
def msg1 : Message :=
  { messageId := 7
    from_ := { id := 1, username := "Alice", firstName := "A", lastName := "" }
    chat_id := 1, text := "hi", document := none, caption := "" }

/-- A message of member 1 that carries neither text nor document. -/
def msg_empty : Message := { msg1 with text := "" }

/-- The text `-mcq Hello` from member 137745730, who is in `TARA_TEAM_IDS` only. -/
def msg_mcq : Message :=
  { messageId := 8
    from_ := { id := 137745730, username := "tara", firstName := "T", lastName := "" }
    chat_id := 137745730, text := "-mcq Hello", document := none, caption := "" }

/-- A text message from member 1414370194, who is in `WRITER_IDS` and in
`CHECKER_TEAM_IDS`. -/
def msg_multi : Message :=
  { messageId := 9
    from_ := { id := 1414370194, username := "Both", firstName := "B", lastName := "" }
    chat_id := 1414370194, text := "hi", document := none, caption := "" }

/-- A text message from member 42 with handle `Alice`, who is in no role set
of `roles.h`. -/
def msg_alice : Message :=
  { messageId := 10
    from_ := { id := 42, username := "Alice", firstName := "A", lastName := "" }
    chat_id := 42, text := "hello", document := none, caption := "" }

/-- The message `msg_multi` without its text: neither text nor document. -/
def msg_multi_empty : Message := { msg_multi with text := "" }

/-- The message `msg_alice` without its text: neither text nor document. -/
def msg_alice_empty : Message := { msg_alice with text := "" }

/-- The world `w0` with a stale entry for the handle `alice`. -/
def w_stale : World := { w0 with user_data_store := [("alice", 7)] }

/-- A text message from member 7354567, who is in `DESIGN_TEAM_IDS` only. -/
def msg_design : Message :=
  { messageId := 11
    from_ := { id := 7354567, username := "Des", firstName := "D", lastName := "" }
    chat_id := 7354567, text := "hi", document := none, caption := "" }

/-- A text message from member 2 with handle `Bob`. -/
def msg2 : Message :=
  { messageId := 12
    from_ := { id := 2, username := "Bob", firstName := "B", lastName := "" }
    chat_id := 2, text := "hi", document := none, caption := "" }

/-! ## Lemmas -/

theorem forward_loop_eq (env : Env) (message : Message) (caption : String) (ids : List Int) :
    ∀ w : World, forward_loop env message caption ids w =
      done { w with trace := w.trace ++ attempts env message caption ids w.trace.length } := by
  induction ids with
  | nil => intro w; simp [forward_loop, attempts]
  | cons id rest ih =>
    intro w
    simp [forward_loop, try_catch, api, attempts, ih, done]

theorem new_events_append (w w2 : World) (es : List Event) (h : w2.trace = w.trace ++ es) :
    new_events w w2 = es := by
  simp [new_events, h]

theorem forward_calls_append (xs ys : List Event) :
    forward_calls (xs ++ ys) = forward_calls xs ++ forward_calls ys := by
  induction xs with
  | nil => rfl
  | cons e rest ih => cases e <;> simp [forward_calls, ih]

theorem api_calls_append (xs ys : List Event) :
    api_calls (xs ++ ys) = api_calls xs ++ api_calls ys := by
  induction xs with
  | nil => rfl
  | cons e rest ih => cases e <;> simp [api_calls, ih]

theorem forward_calls_attempts (env : Env) (message : Message) (caption : String)
    (ids : List Int) : ∀ n, forward_calls (attempts env message caption ids n) = [] := by
  induction ids with
  | nil => intro n; rfl
  | cons id rest ih => intro n; simp [attempts, forward_calls, ih]

theorem api_calls_attempts (env : Env) (message : Message) (caption : String)
    (ids : List Int) : ∀ n, api_calls (attempts env message caption ids n) =
      ids.map (forward_call env message caption) := by
  induction ids with
  | nil => intro n; rfl
  | cons id rest ih => intro n; simp [attempts, api_calls, ih]

theorem forward_call_chat (env : Env) (message : Message) (caption : String) (id : Int) :
    (forward_call env message caption id).chat = id := by
  unfold forward_call
  split
  · rfl
  · split <;> rfl

theorem attempts_length (env : Env) (message : Message) (caption : String)
    (ids : List Int) : ∀ n, (attempts env message caption ids n).length = ids.length := by
  induction ids with
  | nil => intro n; rfl
  | cons id rest ih => intro n; simp [attempts, ih]

theorem attempts_getElem? (env : Env) (message : Message) (caption : String)
    (ids : List Int) : ∀ (n k : Nat) (hk : k < ids.length),
      (attempts env message caption ids n)[k]? =
        some (Event.api (forward_call env message caption ids[k]) (!env.throws (n + k))) := by
  induction ids with
  | nil => intro n k hk; simp at hk
  | cons id rest ih =>
    intro n k hk
    cases k with
    | zero => simp [attempts]
    | succ k =>
      have hk2 : k < rest.length := by simpa using hk
      have e : n + 1 + k = n + (k + 1) := by omega
      simp [attempts, ih (n + 1) k hk2, e]

theorem delivered_attempts (env : Env) (message : Message) (caption : String)
    (fails : Int → Bool) (ids : List Int) : ∀ (n : Nat),
      (∀ (k : Nat) (hk : k < ids.length), env.throws (n + k) = fails ids[k]) →
      delivered (attempts env message caption ids n) = ids.filter (fun id => !fails id) := by
  induction ids with
  | nil => intro n _; rfl
  | cons id rest ih =>
    intro n h
    have h0 : env.throws n = fails id := by simpa using h 0 (by simp)
    have hrest : ∀ (k : Nat) (hk : k < rest.length), env.throws (n + 1 + k) = fails rest[k] := by
      intro k hk
      have := h (k + 1) (by simpa using hk)
      simpa [Nat.add_assoc, Nat.add_comm 1 k] using this
    have ih2 := ih (n + 1) hrest
    cases hf : fails id <;> simp [attempts, delivered, h0, hf, ih2, forward_call_chat]

theorem mem_set_insert (s : List Int) (x id : Int) :
    id ∈ set_insert s x ↔ id ∈ s ∨ id = x := by
  unfold set_insert
  split
  · constructor
    · intro h; exact Or.inl h
    · rintro (h | h)
      · exact h
      · subst h; assumption
  · simp

theorem mem_insert_all (from_id : Int) (ids : List Int) : ∀ (acc : List Int) (id : Int),
    id ∈ ids.foldl (fun acc id => if id ≠ from_id then set_insert acc id else acc) acc ↔
      id ∈ acc ∨ (id ≠ from_id ∧ id ∈ ids) := by
  induction ids with
  | nil => intro acc id; simp
  | cons x rest ih =>
    intro acc id
    rw [List.foldl_cons, ih]
    by_cases hx : x = from_id
    · subst hx
      simp only [ne_eq, not_true_eq_false, if_false, List.mem_cons]
      constructor
      · rintro (h | ⟨h1, h2⟩)
        · exact Or.inl h
        · exact Or.inr ⟨h1, Or.inr h2⟩
      · rintro (h | ⟨h1, h2 | h2⟩)
        · exact Or.inl h
        · exact absurd h2 h1
        · exact Or.inr ⟨h1, h2⟩
    · simp only [ne_eq, hx, not_false_eq_true, if_true, mem_set_insert, List.mem_cons]
      constructor
      · rintro ((h | h) | ⟨h1, h2⟩)
        · exact Or.inl h
        · subst h; exact Or.inr ⟨hx, Or.inl rfl⟩
        · exact Or.inr ⟨h1, Or.inr h2⟩
      · rintro (h | ⟨h1, h2 | h2⟩)
        · exact Or.inl (Or.inl h)
        · exact Or.inl (Or.inr h2)
        · exact Or.inr ⟨h1, h2⟩

theorem mem_expand_roles (cfg : Config) (from_id : Int) (roles : List String) :
    ∀ (acc : List Int) (id : Int),
    id ∈ roles.foldl
        (fun acc role =>
          (index cfg.ROLE_MAP role []).foldl
            (fun acc id => if id ≠ from_id then set_insert acc id else acc) acc)
        acc ↔
      id ∈ acc ∨ (id ≠ from_id ∧ ∃ t ∈ roles, id ∈ index cfg.ROLE_MAP t []) := by
  induction roles with
  | nil => intro acc id; simp
  | cons role rest ih =>
    intro acc id
    rw [List.foldl_cons, ih, mem_insert_all]
    simp only [List.mem_cons, exists_eq_or_imp]
    tauto

theorem mem_target_ids_set (cfg : Config) (from_id : Int) (target_roles : List String)
    (id : Int) :
    id ∈ target_ids_set cfg from_id target_roles ↔
      id ≠ from_id ∧ ∃ t ∈ target_roles, id ∈ index cfg.ROLE_MAP t [] := by
  unfold target_ids_set
  rw [mem_expand_roles]
  simp

theorem forward_message_eq (cfg : Config) (env : Env) (w : World) (message : Message)
    (target_ids : List Int) (sender_role : String) :
    forward_message cfg env w message target_ids sender_role =
      done { w with trace := w.trace ++
        (Event.forward_message message target_ids sender_role ::
          attempts env message (forward_caption cfg env message sender_role) target_ids
            (w.trace.length + 1)) } := by
  simp [forward_message, forward_loop_eq, record, done]

theorem map_chat_forward_call (env : Env) (message : Message) (caption : String)
    (ids : List Int) :
    (ids.map (forward_call env message caption)).map ApiCall.chat = ids := by
  induction ids with
  | nil => rfl
  | cons id rest ih => simp [forward_call_chat] at ih ⊢; exact ih

theorem api_calls_nil : api_calls [] = [] := rfl

theorem api_calls_api (call : ApiCall) (b : Bool) (rest : List Event) :
    api_calls (Event.api call b :: rest) = call :: api_calls rest := rfl

theorem api_calls_forward (message : Message) (ids : List Int) (role : String)
    (rest : List Event) :
    api_calls (Event.forward_message message ids role :: rest) = api_calls rest := rfl

theorem api_calls_save (rest : List Event) :
    api_calls (Event.save_user_data :: rest) = api_calls rest := rfl

theorem delivered_forward (message : Message) (ids : List Int) (role : String)
    (rest : List Event) :
    delivered (Event.forward_message message ids role :: rest) = delivered rest := rfl


/-! ### The identity refresh -/

theorem refresh_events_cases (w : World) (message : Message) :
    refresh_events w message = [] ∨ refresh_events w message = [Event.save_user_data] := by
  unfold refresh_events new_events update_user_data
  dsimp only
  split_ifs
  · right; simp [record]
  · left; simp
  · left; simp

theorem update_user_data_trace (w : World) (message : Message) :
    (update_user_data w message).trace = w.trace ++ refresh_events w message := by
  unfold refresh_events new_events update_user_data
  dsimp only
  split_ifs <;> simp [record]

theorem update_user_data_uuids (w : World) (message : Message) :
    (update_user_data w message).uuids_issued = w.uuids_issued := by
  unfold update_user_data
  dsimp only
  split_ifs <;> rfl

theorem api_calls_refresh (w : World) (message : Message) :
    api_calls (refresh_events w message) = [] := by
  rcases refresh_events_cases w message with h | h <;> rw [h] <;> rfl

theorem forward_calls_refresh (w : World) (message : Message) :
    forward_calls (refresh_events w message) = [] := by
  rcases refresh_events_cases w message with h | h <;> rw [h] <;> rfl

/-! ### The branches of the message handler -/

theorem guard_of_content (message : Message)
    (hcontent : message.text ≠ "" ∨ message.document.isSome = true) :
    ¬ (message.text = "" ∧ message.document.isNone = true) := by
  rintro ⟨h1, h2⟩
  rcases hcontent with h | h
  · exact h h1
  · cases hd : message.document <;> simp_all

theorem onAnyMessage_empty (cfg : Config) (env : Env) (w : World) (message : Message)
    (htext : message.text = "") (hdoc : message.document = none) :
    onAnyMessage cfg env w message = done w := by
  unfold onAnyMessage onAnyMessage_body
  rw [if_pos ⟨htext, by simp [hdoc]⟩]
  rfl

theorem onAnyMessage_muted (cfg : Config) (env : Env) (w : World) (message : Message)
    (hcontent : message.text ≠ "" ∨ message.document.isSome = true)
    (hmute : message.from_.id ∈ w.muted_users) :
    onAnyMessage cfg env w message =
      try_catch (api env w (ApiCall.sendMessage message.chat_id mute_notice none "")) := by
  unfold onAnyMessage onAnyMessage_body
  rw [if_neg (guard_of_content message hcontent), if_pos hmute]

theorem onAnyMessage_no_role (cfg : Config) (env : Env) (w : World) (message : Message)
    (hcontent : message.text ≠ "" ∨ message.document.isSome = true)
    (hmute : message.from_.id ∉ w.muted_users)
    (hroles : get_user_roles cfg message.from_.id = []) :
    onAnyMessage cfg env w message =
      try_catch (api env (get_uuid env (update_user_data w message)).2
        (ApiCall.sendMessage message.chat_id
          "You have no roles. Do you want to send this as *anonymous feedback* to all teams?"
          (some (no_role_keyboard (env.uuid_generate w.uuids_issued))) "Markdown")) := by
  unfold onAnyMessage onAnyMessage_body
  rw [if_neg (guard_of_content message hcontent), if_neg hmute]
  simp only [hroles, get_uuid, update_user_data_uuids]

theorem onAnyMessage_single (cfg : Config) (env : Env) (w : World) (message : Message)
    (r : String)
    (hcontent : message.text ≠ "" ∨ message.document.isSome = true)
    (hmute : message.from_.id ∉ w.muted_users)
    (hrole : get_user_roles cfg message.from_.id = [r]) :
    onAnyMessage cfg env w message =
      try_catch (api env
        (forward_message cfg env (update_user_data w message) message
          (target_ids_set cfg message.from_.id (index cfg.SENDING_ROLE_TARGETS r [])) r).world
        (ApiCall.sendMessage message.chat_id
          (sent_confirmation cfg env message r) none "Markdown")) := by
  unfold onAnyMessage onAnyMessage_body
  rw [if_neg (guard_of_content message hcontent), if_neg hmute]
  simp only [hrole]
  simp [forward_message_eq, done]

theorem onAnyMessage_multi (cfg : Config) (env : Env) (w : World) (message : Message)
    (r1 r2 : String) (rest : List String)
    (hcontent : message.text ≠ "" ∨ message.document.isSome = true)
    (hmute : message.from_.id ∉ w.muted_users)
    (hroles : get_user_roles cfg message.from_.id = r1 :: r2 :: rest) :
    onAnyMessage cfg env w message =
      try_catch (api env (update_user_data w message)
        (ApiCall.sendMessage message.chat_id
          "You have multiple roles. Please choose which role you want to use to send this message:"
          (some (role_keyboard cfg (r1 :: r2 :: rest))) "Markdown")) := by
  unfold onAnyMessage onAnyMessage_body
  rw [if_neg (guard_of_content message hcontent), if_neg hmute]
  simp only [hroles]

/-! ### The events each branch adds -/

theorem new_events_api (env : Env) (w w1 : World) (pre : List Event) (call : ApiCall)
    (h : w1.trace = w.trace ++ pre) :
    new_events w (try_catch (api env w1 call)).world =
      pre ++ [Event.api call (!env.throws w1.trace.length)] := by
  apply new_events_append
  simp [try_catch, api, h]

theorem new_events_muted (cfg : Config) (env : Env) (w : World) (message : Message)
    (hcontent : message.text ≠ "" ∨ message.document.isSome = true)
    (hmute : message.from_.id ∈ w.muted_users) :
    new_events w (onAnyMessage cfg env w message).world =
      [Event.api (ApiCall.sendMessage message.chat_id mute_notice none "")
        (!env.throws w.trace.length)] := by
  rw [onAnyMessage_muted cfg env w message hcontent hmute]
  exact new_events_api env w w [] _ (by simp)

theorem new_events_empty (cfg : Config) (env : Env) (w : World) (message : Message)
    (htext : message.text = "") (hdoc : message.document = none) :
    new_events w (onAnyMessage cfg env w message).world = [] := by
  rw [onAnyMessage_empty cfg env w message htext hdoc]
  simp [new_events, done]

theorem new_events_no_role (cfg : Config) (env : Env) (w : World) (message : Message)
    (hcontent : message.text ≠ "" ∨ message.document.isSome = true)
    (hmute : message.from_.id ∉ w.muted_users)
    (hroles : get_user_roles cfg message.from_.id = []) :
    new_events w (onAnyMessage cfg env w message).world =
      refresh_events w message ++
        [Event.api (ApiCall.sendMessage message.chat_id
          "You have no roles. Do you want to send this as *anonymous feedback* to all teams?"
          (some (no_role_keyboard (env.uuid_generate w.uuids_issued))) "Markdown")
          (!env.throws (update_user_data w message).trace.length)] := by
  rw [onAnyMessage_no_role cfg env w message hcontent hmute hroles]
  exact new_events_api env w _ _ _ (by simp [get_uuid, update_user_data_trace])

theorem new_events_multi (cfg : Config) (env : Env) (w : World) (message : Message)
    (r1 r2 : String) (rest : List String)
    (hcontent : message.text ≠ "" ∨ message.document.isSome = true)
    (hmute : message.from_.id ∉ w.muted_users)
    (hroles : get_user_roles cfg message.from_.id = r1 :: r2 :: rest) :
    new_events w (onAnyMessage cfg env w message).world =
      refresh_events w message ++
        [Event.api (ApiCall.sendMessage message.chat_id
          "You have multiple roles. Please choose which role you want to use to send this message:"
          (some (role_keyboard cfg (r1 :: r2 :: rest))) "Markdown")
          (!env.throws (update_user_data w message).trace.length)] := by
  rw [onAnyMessage_multi cfg env w message r1 r2 rest hcontent hmute hroles]
  exact new_events_api env w _ _ _ (update_user_data_trace w message)

theorem new_events_single (cfg : Config) (env : Env) (w : World) (message : Message)
    (r : String)
    (hcontent : message.text ≠ "" ∨ message.document.isSome = true)
    (hmute : message.from_.id ∉ w.muted_users)
    (hrole : get_user_roles cfg message.from_.id = [r]) :
    new_events w (onAnyMessage cfg env w message).world =
      (refresh_events w message ++
        Event.forward_message message
            (target_ids_set cfg message.from_.id (index cfg.SENDING_ROLE_TARGETS r [])) r ::
          attempts env message (forward_caption cfg env message r)
            (target_ids_set cfg message.from_.id (index cfg.SENDING_ROLE_TARGETS r []))
            ((update_user_data w message).trace.length + 1)) ++
        [Event.api (ApiCall.sendMessage message.chat_id
          (sent_confirmation cfg env message r) none "Markdown")
          (!env.throws (forward_message cfg env (update_user_data w message) message
            (target_ids_set cfg message.from_.id (index cfg.SENDING_ROLE_TARGETS r [])) r
              ).world.trace.length)] := by
  rw [onAnyMessage_single cfg env w message r hcontent hmute hrole]
  apply new_events_api
  rw [forward_message_eq]
  simp [done, update_user_data_trace]

/-- The single-role branch enters `forward_message` exactly once. -/
theorem forward_calls_single (cfg : Config) (env : Env) (w : World) (message : Message)
    (r : String)
    (hcontent : message.text ≠ "" ∨ message.document.isSome = true)
    (hmute : message.from_.id ∉ w.muted_users)
    (hrole : get_user_roles cfg message.from_.id = [r]) :
    forward_calls (new_events w (onAnyMessage cfg env w message).world) =
      [(message,
        target_ids_set cfg message.from_.id (index cfg.SENDING_ROLE_TARGETS r []), r)] := by
  rw [new_events_single cfg env w message r hcontent hmute hrole]
  simp [forward_calls_append, forward_calls_refresh, forward_calls, forward_calls_attempts]

/-! ### Strings and tables -/

theorem starts_with_append (p s : String) : starts_with (p ++ s) p = true := by
  simp [starts_with, String.data_append]

theorem substr_append (p s : String) : substr (p ++ s) p.length = some s := by
  have hlen : ¬ (p.length > (p ++ s).length) := by
    rw [String.length_append]; omega
  unfold substr
  rw [if_neg hlen, String.data_append]
  have hdrop : List.drop p.length (p.data ++ s.data) = s.data := List.drop_left _ _
  rw [hdrop]

theorem substr_isSome (s : String) (pos : Nat) (h : pos ≤ s.length) :
    ∃ t, substr s pos = some t := by
  refine ⟨String.mk (s.data.drop pos), ?_⟩
  simp [substr, Nat.not_lt.mpr h]

theorem first_char_append (a b : String) (c : Char) (h : first_char a = some c) :
    first_char (a ++ b) = some c := by
  unfold first_char at h ⊢
  rw [String.data_append]
  cases hd : a.data with
  | nil => simp [hd] at h
  | cons x xs => simpa [hd] using h

theorem ne_of_first_char (s t : String) (c d : Char) (hs : first_char s = some c)
    (ht : first_char t = some d) (hcd : c ≠ d) : s ≠ t := by
  rintro rfl
  rw [hs] at ht
  exact hcd (Option.some.inj ht)

theorem mem_get_user_roles (cfg : Config) (user_id : Int) (role : String) :
    role ∈ get_user_roles cfg user_id ↔ ∃ ids, (role, ids) ∈ cfg.ROLE_MAP ∧ user_id ∈ ids := by
  simp [get_user_roles]

theorem nodup_get_user_roles (cfg : Config) (user_id : Int)
    (hkeys : (cfg.ROLE_MAP.map Prod.fst).Nodup) : (get_user_roles cfg user_id).Nodup := by
  unfold get_user_roles
  exact hkeys.sublist (List.filter_sublist _ |>.map Prod.fst)

theorem mem_index_iff (table : List (String × List Int)) (user_id : Int) (role : String)
    (hkeys : (table.map Prod.fst).Nodup) :
    user_id ∈ index table role [] ↔ ∃ ids, (role, ids) ∈ table ∧ user_id ∈ ids := by
  induction table with
  | nil => simp [index]
  | cons p rest ih =>
    obtain ⟨k, v⟩ := p
    have hk : k ∉ rest.map Prod.fst := (List.nodup_cons.mp hkeys).1
    have ih2 := ih (List.nodup_cons.mp hkeys).2
    by_cases hrk : role = k
    · subst hrk
      have hno : ∀ ids, (role, ids) ∉ rest := by
        intro ids hmem
        exact hk (List.mem_map.mpr ⟨(role, ids), hmem, rfl⟩)
      simp [index, List.lookup, hno]
    · have hbeq : (role == k) = false := by simpa using hrk
      simp only [index, List.lookup, hbeq] at ih2 ⊢
      rw [ih2]
      simp [hrk]

theorem starts_with_append_false (p u q : String) (hlen : q.length ≤ p.length)
    (h : p.data.take q.length ≠ q.data) : starts_with (p ++ u) q = false := by
  cases hs : starts_with (p ++ u) q with
  | false => rfl
  | true =>
    exfalso
    apply h
    unfold starts_with at hs
    rw [String.data_append] at hs
    have hpre : q.data <+: p.data ++ u.data := List.isPrefixOf_iff_prefix.mp hs
    have htake : (p.data ++ u.data).take q.data.length = q.data :=
      List.prefix_iff_eq_take.mp hpre |>.symm
    have hle : q.data.length ≤ p.data.length := hlen
    rw [List.take_append_of_le_length hle] at htake
    exact htake

theorem append_ne_of_take (n : Nat) (p u t : String) (hn : n ≤ p.length)
    (h : p.data.take n ≠ t.data.take n) : p ++ u ≠ t := by
  intro heq
  apply h
  have hd : (p ++ u).data.take n = t.data.take n := by rw [heq]
  rw [String.data_append] at hd
  have hle : n ≤ p.data.length := hn
  rw [List.take_append_of_le_length hle] at hd
  exact hd

theorem length_pos_of_ne_empty (u : String) (hu : u ≠ "") : 1 ≤ u.length := by
  cases hd : u.data with
  | nil =>
    exfalso
    apply hu
    have : u = String.mk u.data := rfl
    rw [this, hd]
  | cons x xs =>
    have : u.length = u.data.length := rfl
    rw [this, hd]
    simp

/-! ### The callback handler -/

theorem onCallbackQuery_role (cfg : Config) (env : Env) (w : World) (chat : Int)
    (role : String) :
    onCallbackQuery cfg env w { chat_id := chat, data := "role:" ++ role } =
      try_catch (api env w (ApiCall.sendMessage chat
        ("Write your message for the " ++ index cfg.ROLE_DISPLAY_NAMES role "" ++ ".")
        none "Markdown")) := by
  have h1 : starts_with ("role:" ++ role) "role:" = true := starts_with_append "role:" role
  have h2 : substr ("role:" ++ role) 5 = some role := substr_append "role:" role
  unfold onCallbackQuery onCallbackQuery_body
  simp only [h1, h2, if_true]

theorem onCallbackQuery_confirm (cfg : Config) (env : Env) (w : World) (chat : Int)
    (u : String) (hu : u ≠ "") :
    onCallbackQuery cfg env w { chat_id := chat, data := "confirm_no_role:" ++ u } =
      try_catch (api env w (ApiCall.sendMessage chat
        "✅ *Your anonymous feedback has been sent to all teams.*" none "Markdown")) := by
  have h1 : starts_with ("confirm_no_role:" ++ u) "role:" = false :=
    starts_with_append_false "confirm_no_role:" u "role:" (by decide) (by decide)
  have h2 : "confirm_no_role:" ++ u ≠ "cancel_role_selection" :=
    append_ne_of_take 2 "confirm_no_role:" u "cancel_role_selection" (by decide) (by decide)
  have h3 : starts_with ("confirm_no_role:" ++ u) "confirm_no_role:" = true :=
    starts_with_append "confirm_no_role:" u
  have hlen : 17 ≤ ("confirm_no_role:" ++ u).length := by
    rw [String.length_append]
    have h16 : "confirm_no_role:".length = 16 := by decide
    have := length_pos_of_ne_empty u hu
    omega
  obtain ⟨t, ht⟩ := substr_isSome ("confirm_no_role:" ++ u) 17 hlen
  unfold onCallbackQuery onCallbackQuery_body
  simp only [h1, h2, h3, ht, if_true, if_false, Bool.false_eq_true]

/-! ### Texts that are not the mute notice -/

theorem first_char_forward_caption (cfg : Config) (env : Env) (message : Message)
    (sender_role : String) :
    first_char (forward_caption cfg env message sender_role) = some '🔄' := by
  unfold forward_caption
  dsimp only
  split_ifs <;>
    exact first_char_append _ _ _ (first_char_append _ _ _ (first_char_append _ _ _
      (first_char_append _ _ _ rfl)))

theorem first_char_sent_confirmation (cfg : Config) (env : Env) (message : Message)
    (sender_role : String) :
    first_char (sent_confirmation cfg env message sender_role) = some '✅' := by
  unfold sent_confirmation
  dsimp only
  split
  · exact first_char_append _ _ _ (first_char_append _ _ _ (first_char_append _ _ _
      (first_char_append _ _ _ rfl)))
  · split_ifs <;> exact first_char_append _ _ _ (first_char_append _ _ _ rfl)

theorem is_mute_notice_of_ne (chat : Int) (text : String)
    (markup : Option InlineKeyboardMarkup) (mode : String) (b : Bool)
    (hne : text ≠ mute_notice) :
    is_mute_notice (Event.api (ApiCall.sendMessage chat text markup mode) b) = false := by
  simp [is_mute_notice, hne]

theorem is_mute_notice_of_first_char (chat : Int) (text : String)
    (markup : Option InlineKeyboardMarkup) (mode : String) (b : Bool) (c : Char)
    (hc : first_char text = some c) (hne : c ≠ 'Y') :
    is_mute_notice (Event.api (ApiCall.sendMessage chat text markup mode) b) = false := by
  have : text ≠ mute_notice := ne_of_first_char text mute_notice c 'Y' hc rfl hne
  simp [is_mute_notice, this]

theorem is_mute_notice_attempts (cfg : Config) (env : Env) (message : Message)
    (sender_role : String) (ids : List Int) :
    ∀ (n : Nat), ∀ e ∈ attempts env message (forward_caption cfg env message sender_role) ids n,
      is_mute_notice e = false := by
  induction ids with
  | nil => intro n e he; simp [attempts] at he
  | cons id rest ih =>
    intro n e he
    simp only [attempts, List.mem_cons] at he
    rcases he with rfl | he
    · unfold forward_call
      split
      · rfl
      · split_ifs
        · exact is_mute_notice_of_first_char _ _ _ _ _ '🔄'
            (first_char_append _ _ _ (first_char_append _ _ _
              (first_char_forward_caption cfg env message sender_role))) (by decide)
        · rfl
    · exact ih (n + 1) e he

theorem is_mute_notice_refresh (w : World) (message : Message) :
    ∀ e ∈ refresh_events w message, is_mute_notice e = false := by
  intro e he
  rcases refresh_events_cases w message with h | h <;> rw [h] at he <;> simp at he
  subst he
  rfl

/-! ### The identity store -/

theorem store_find_assign (store : List (String × Int)) (key : String) (id : Int) :
    store_find (store_assign store key id) key = some id := by
  simp [store_find, store_assign, List.lookup]

theorem store_find_update (w : World) (message : Message)
    (hname : message.from_.username ≠ "") :
    store_find (update_user_data w message).user_data_store (tolower message.from_.username) =
      some message.from_.id := by
  unfold update_user_data
  rw [if_pos hname]
  dsimp only
  split_ifs with hc
  · exact store_find_assign _ _ _
  · cases hl : List.lookup (tolower message.from_.username) w.user_data_store with
    | none => simp [store_find, hl] at hc
    | some v => simp [store_find, index, hl] at hc ⊢; exact hc

theorem onAnyMessage_store (cfg : Config) (env : Env) (w : World) (message : Message)
    (hcontent : message.text ≠ "" ∨ message.document.isSome = true)
    (hmute : message.from_.id ∉ w.muted_users) :
    (onAnyMessage cfg env w message).world.user_data_store =
      (update_user_data w message).user_data_store := by
  rcases hroles : get_user_roles cfg message.from_.id with _ | ⟨r1, _ | ⟨r2, rest⟩⟩
  · rw [onAnyMessage_no_role cfg env w message hcontent hmute hroles]
    simp [try_catch, api, get_uuid]
  · rw [onAnyMessage_single cfg env w message r1 hcontent hmute hroles, forward_message_eq]
    simp [try_catch, api, done]
  · rw [onAnyMessage_multi cfg env w message r1 r2 rest hcontent hmute hroles]
    simp [try_catch, api]

/-! ### The recipient list has no duplicates -/

theorem nodup_set_insert (s : List Int) (id : Int) (h : s.Nodup) : (set_insert s id).Nodup := by
  unfold set_insert
  split
  · exact h
  · rename_i hnot
    rw [List.nodup_append]
    refine ⟨h, List.nodup_singleton id, ?_⟩
    intro x hx hx2
    rw [List.mem_singleton] at hx2
    subst hx2
    exact hnot hx

theorem nodup_insert_all (from_id : Int) (ids : List Int) : ∀ (acc : List Int), acc.Nodup →
    (ids.foldl (fun acc id => if id ≠ from_id then set_insert acc id else acc) acc).Nodup := by
  induction ids with
  | nil => intro acc h; exact h
  | cons x rest ih =>
    intro acc h
    rw [List.foldl_cons]
    apply ih
    split
    · exact nodup_set_insert acc x h
    · exact h

theorem nodup_expand_roles (cfg : Config) (from_id : Int) (roles : List String) :
    ∀ (acc : List Int), acc.Nodup →
    (roles.foldl
      (fun acc role =>
        (index cfg.ROLE_MAP role []).foldl
          (fun acc id => if id ≠ from_id then set_insert acc id else acc) acc)
      acc).Nodup := by
  induction roles with
  | nil => intro acc h; exact h
  | cons role rest ih =>
    intro acc h
    rw [List.foldl_cons]
    exact ih _ (nodup_insert_all from_id _ acc h)

theorem nodup_target_ids_set (cfg : Config) (from_id : Int) (target_roles : List String) :
    (target_ids_set cfg from_id target_roles).Nodup := by
  unfold target_ids_set
  exact nodup_expand_roles cfg from_id target_roles [] List.nodup_nil

/-! ### The identifier taken from the callback data -/

theorem confirmation_uuid_drops_first (c : Char) (rest : List Char) :
    confirmation_uuid ("confirm_no_role:" ++ String.mk (c :: rest)) = some (String.mk rest) := by
  have hsplit : "confirm_no_role:" ++ String.mk (c :: rest) =
      ("confirm_no_role:" ++ String.mk [c]) ++ String.mk rest := by
    apply String.ext
    simp [String.data_append]
  have hlen : ("confirm_no_role:" ++ String.mk [c]).length = 17 := by
    rw [String.length_append]
    rfl
  unfold confirmation_uuid
  rw [hsplit, ← hlen]
  exact substr_append _ _

/-! ### The mute list and a sender who is not muted -/

theorem update_user_data_muted (w : World) (message : Message) :
    (update_user_data w message).muted_users = w.muted_users := by
  unfold update_user_data
  dsimp only
  split_ifs <;> rfl

theorem update_user_data_unmuted (w : World) (message : Message) :
    update_user_data { w with muted_users := [] } message =
      { update_user_data w message with muted_users := [] } := by
  unfold update_user_data
  dsimp only
  split_ifs <;> rfl

/-- For a sender who is not muted the handler leaves the world it would leave
with an empty mute list, but for the mute list itself, which it keeps. -/
theorem onAnyMessage_unmuted (cfg : Config) (env : Env) (w : World) (message : Message)
    (hmute : message.from_.id ∉ w.muted_users) :
    (onAnyMessage cfg env w message).world =
      { (onAnyMessage cfg env { w with muted_users := [] } message).world with
        muted_users := w.muted_users } := by
  have hmute0 : message.from_.id ∉ ({ w with muted_users := [] } : World).muted_users := by
    simp
  by_cases hcontent : message.text ≠ "" ∨ message.document.isSome = true
  · rcases hroles : get_user_roles cfg message.from_.id with _ | ⟨r1, _ | ⟨r2, rest⟩⟩
    · rw [onAnyMessage_no_role cfg env w message hcontent hmute hroles,
        onAnyMessage_no_role cfg env _ message hcontent hmute0 hroles,
        update_user_data_unmuted]
      simp [try_catch, api, get_uuid, update_user_data_muted]
    · rw [onAnyMessage_single cfg env w message r1 hcontent hmute hroles,
        onAnyMessage_single cfg env _ message r1 hcontent hmute0 hroles,
        update_user_data_unmuted, forward_message_eq, forward_message_eq]
      simp [try_catch, api, done, update_user_data_muted]
    · rw [onAnyMessage_multi cfg env w message r1 r2 rest hcontent hmute hroles,
        onAnyMessage_multi cfg env _ message r1 r2 rest hcontent hmute0 hroles,
        update_user_data_unmuted]
      simp [try_catch, api, update_user_data_muted]
  · have htext : message.text = "" := by
      by_contra h; exact hcontent (Or.inl h)
    have hdoc : message.document = none := by
      cases hd : message.document with
      | none => rfl
      | some d => exact absurd (Or.inr (by simp [hd])) hcontent
    rw [onAnyMessage_empty cfg env w message htext hdoc,
      onAnyMessage_empty cfg env _ message htext hdoc]
    rfl

/-! ## Claims -/

/-- C1: a non-muted sender with exactly one role `r` and a message with text or
a document: `forward_message` is entered exactly once, with the message and
the id list `target_ids_set`; an id is in that list exactly when it differs
from the sender and belongs to `ROLE_MAP[t]` for some `t` in
`SENDING_ROLE_TARGETS[r]`; and the Bot API calls of the handler are addressed
to those ids, in order, followed by the confirmation to the chat of the
message. -/
theorem single_role_recipients (cfg : Config) (env : Env) (w : World) (message : Message)
    (r : String)
    (hcontent : message.text ≠ "" ∨ message.document.isSome = true)
    (hmute : message.from_.id ∉ w.muted_users)
    (hrole : get_user_roles cfg message.from_.id = [r]) :
    forward_calls (new_events w (onAnyMessage cfg env w message).world) =
        [(message,
          target_ids_set cfg message.from_.id (index cfg.SENDING_ROLE_TARGETS r []), r)] ∧
      (∀ id : Int,
        id ∈ target_ids_set cfg message.from_.id (index cfg.SENDING_ROLE_TARGETS r []) ↔
          id ≠ message.from_.id ∧
            ∃ t ∈ index cfg.SENDING_ROLE_TARGETS r [], id ∈ index cfg.ROLE_MAP t []) ∧
      (api_calls (new_events w (onAnyMessage cfg env w message).world)).map ApiCall.chat =
        target_ids_set cfg message.from_.id (index cfg.SENDING_ROLE_TARGETS r []) ++
          [message.chat_id] := by
  refine ⟨forward_calls_single cfg env w message r hcontent hmute hrole,
    fun id => mem_target_ids_set cfg _ _ id, ?_⟩
  rw [new_events_single cfg env w message r hcontent hmute hrole]
  simp only [api_calls_append, api_calls_refresh, api_calls_forward, api_calls_attempts,
    api_calls_api, api_calls_nil, List.nil_append, List.map_append, List.map_cons, List.map_nil,
    map_chat_forward_call, ApiCall.chat]

/-- C1, instance of the specification: with WRITER={1,2}, MCQS={3},
CHECKER={4}, TARA={5} and sender 1 (writer only) the recipients are 3, 4, 5. -/
theorem single_role_recipients_witness :
    (msg1.text ≠ "" ∨ msg1.document.isSome = true) ∧
      msg1.from_.id ∉ w0.muted_users ∧
      get_user_roles scenario msg1.from_.id = ["writer"] ∧
      target_ids_set scenario msg1.from_.id (index scenario.SENDING_ROLE_TARGETS "writer" []) =
        [3, 4, 5] ∧
      forward_calls (new_events w0 (onAnyMessage scenario env0 w0 msg1).world) =
        [(msg1,
          target_ids_set scenario msg1.from_.id (index scenario.SENDING_ROLE_TARGETS "writer" []),
          "writer")] ∧
      (api_calls (new_events w0 (onAnyMessage scenario env0 w0 msg1).world)).map ApiCall.chat =
        target_ids_set scenario msg1.from_.id (index scenario.SENDING_ROLE_TARGETS "writer" []) ++
          [msg1.chat_id] :=
  have h := single_role_recipients scenario env0 w0 msg1 "writer"
    (by decide) (by decide) (by decide)
  ⟨by decide, by decide, by decide, by decide, h.1, h.2.2⟩

set_option maxRecDepth 100000 in
/-- C2, failing input: member 137745730 holds only `tara_team` and sends the
text `-mcq Hello`.  Whatever the environment, `forward_message` receives the
message with its text unchanged and the id list of the default routing of
`tara_team`, which holds member 7491629866, a writer outside `mcqs_team`; in
`env0` that member is sent the text with the trigger still in front. -/
theorem trigger_routed_by_default (env : Env) :
    get_user_roles shipped msg_mcq.from_.id = ["tara_team"] ∧
      forward_calls (new_events w0 (onAnyMessage shipped env w0 msg_mcq).world) =
        [(msg_mcq,
          target_ids_set shipped msg_mcq.from_.id
            (index shipped.SENDING_ROLE_TARGETS "tara_team" []),
          "tara_team")] ∧
      msg_mcq.text = "-mcq Hello" ∧
      (7491629866 : Int) ∈ target_ids_set shipped msg_mcq.from_.id
        (index shipped.SENDING_ROLE_TARGETS "tara_team" []) ∧
      (7491629866 : Int) ∉ index shipped.ROLE_MAP "mcqs_team" [] ∧
      index shipped.TRIGGER_TARGET_MAP "-mcq" [] = ["mcqs_team"] ∧
      Event.api (ApiCall.sendMessage 7491629866
          "🔄 *This message was sent by **@tara (Tara Team)**.*\n\n-mcq Hello" none "Markdown")
        true ∈ new_events w0 (onAnyMessage shipped env0 w0 msg_mcq).world :=
  ⟨by decide,
    forward_calls_single shipped env w0 msg_mcq "tara_team" (by decide) (by decide) (by decide),
    rfl, by decide, by decide, by decide, by decide⟩

/-- C3, counterexample: member 1 is muted and sends a message with empty text
and no document; the handler adds no event, so no mute notice is sent. -/
theorem muted_empty_message_unanswered :
    msg_empty.from_.id ∈ w_muted.muted_users ∧
      msg_empty.text = "" ∧ msg_empty.document = none ∧
      new_events w_muted (onAnyMessage scenario env0 w_muted msg_empty).world = [] := by
  decide

/-- C3, amended: a message with text or a document from a muted sender is
answered by exactly one Bot API call, the mute notice to the chat of the
message; a message with empty text and no document is dropped without any
event, muted or not; for a sender who is not muted no event of the handler
is a mute notice; and for such a sender normal routing applies: the handler
leaves the world it would leave if nobody were muted (the mute list apart,
which it keeps), and a message with text or a document is routed by the roles
of the sender, to the feedback question when there is none, into
`forward_message` with the targets of the role when there is one, and to the
role-selection question when there are several. -/
theorem mute_gate_notice (cfg : Config) (env : Env) (w : World) (message : Message) :
    (message.from_.id ∈ w.muted_users →
      (message.text ≠ "" ∨ message.document.isSome = true) →
      new_events w (onAnyMessage cfg env w message).world =
        [Event.api (ApiCall.sendMessage message.chat_id mute_notice none "")
          (!env.throws w.trace.length)]) ∧
      (message.text = "" → message.document = none →
        new_events w (onAnyMessage cfg env w message).world = []) ∧
      (message.from_.id ∉ w.muted_users →
        ∀ e ∈ new_events w (onAnyMessage cfg env w message).world, is_mute_notice e = false) ∧
      (message.from_.id ∉ w.muted_users →
        (onAnyMessage cfg env w message).world =
          { (onAnyMessage cfg env { w with muted_users := [] } message).world with
            muted_users := w.muted_users }) ∧
      (message.from_.id ∉ w.muted_users →
        (message.text ≠ "" ∨ message.document.isSome = true) →
        (get_user_roles cfg message.from_.id = [] →
          api_calls (new_events w (onAnyMessage cfg env w message).world) =
            [ApiCall.sendMessage message.chat_id
              "You have no roles. Do you want to send this as *anonymous feedback* to all teams?"
              (some (no_role_keyboard (get_uuid env w).1)) "Markdown"] ∧
          forward_calls (new_events w (onAnyMessage cfg env w message).world) = []) ∧
        (∀ r : String, get_user_roles cfg message.from_.id = [r] →
          forward_calls (new_events w (onAnyMessage cfg env w message).world) =
            [(message,
              target_ids_set cfg message.from_.id (index cfg.SENDING_ROLE_TARGETS r []), r)]) ∧
        (1 < (get_user_roles cfg message.from_.id).length →
          api_calls (new_events w (onAnyMessage cfg env w message).world) =
            [ApiCall.sendMessage message.chat_id
              "You have multiple roles. Please choose which role you want to use to send this message:"
              (some (role_keyboard cfg (get_user_roles cfg message.from_.id))) "Markdown"] ∧
          forward_calls (new_events w (onAnyMessage cfg env w message).world) = [])) := by
  refine ⟨fun hm hc => new_events_muted cfg env w message hc hm,
    fun ht hd => new_events_empty cfg env w message ht hd, ?_,
    fun hmute => onAnyMessage_unmuted cfg env w message hmute, ?_⟩
  · intro hmute e he
    by_cases hcontent : message.text ≠ "" ∨ message.document.isSome = true
    · rcases hroles : get_user_roles cfg message.from_.id with _ | ⟨r1, _ | ⟨r2, rest⟩⟩
      · rw [new_events_no_role cfg env w message hcontent hmute hroles] at he
        rcases List.mem_append.mp he with h | h
        · exact is_mute_notice_refresh w message e h
        · rw [List.mem_singleton] at h
          subst h
          exact is_mute_notice_of_ne _ _ _ _ _ (by decide)
      · rw [new_events_single cfg env w message r1 hcontent hmute hroles] at he
        rcases List.mem_append.mp he with h | h
        · rcases List.mem_append.mp h with h | h
          · exact is_mute_notice_refresh w message e h
          · rcases List.mem_cons.mp h with h | h
            · subst h; rfl
            · exact is_mute_notice_attempts cfg env message r1 _ _ e h
        · rw [List.mem_singleton] at h
          subst h
          exact is_mute_notice_of_first_char _ _ _ _ _ '✅'
            (first_char_sent_confirmation cfg env message r1) (by decide)
      · rw [new_events_multi cfg env w message r1 r2 rest hcontent hmute hroles] at he
        rcases List.mem_append.mp he with h | h
        · exact is_mute_notice_refresh w message e h
        · rw [List.mem_singleton] at h
          subst h
          exact is_mute_notice_of_ne _ _ _ _ _ (by decide)
    · have ht : message.text = "" := by
        by_contra h; exact hcontent (Or.inl h)
      have hd : message.document = none := by
        cases hdoc : message.document with
        | none => rfl
        | some d => exact absurd (Or.inr (by simp [hdoc])) hcontent
      rw [new_events_empty cfg env w message ht hd] at he
      simp at he
  · intro hmute hcontent
    refine ⟨?_, ?_, ?_⟩
    · intro hroles
      rw [new_events_no_role cfg env w message hcontent hmute hroles]
      constructor
      · simp [api_calls_append, api_calls_refresh, api_calls, get_uuid]
      · simp [forward_calls_append, forward_calls_refresh, forward_calls]
    · intro r hrole
      exact forward_calls_single cfg env w message r hcontent hmute hrole
    · intro hmulti
      rcases hroles : get_user_roles cfg message.from_.id with _ | ⟨r1, _ | ⟨r2, rest⟩⟩
      · simp [hroles] at hmulti
      · simp [hroles] at hmulti
      · rw [new_events_multi cfg env w message r1 r2 rest hcontent hmute hroles]
        constructor
        · simp [api_calls_append, api_calls_refresh, api_calls]
        · simp [forward_calls_append, forward_calls_refresh, forward_calls]

/-- C3, amended, at a concrete input: muted member 1 sends `hi` and gets the
mute notice; the same message from member 1 when nobody is muted yields no
mute notice; and while member 1 is muted, the message `hi` of writer 2 is
handed to `forward_message` for the recipients 3, 4 and 5, as it is when
nobody is muted. -/
theorem mute_gate_notice_witness :
    (msg1.from_.id ∈ w_muted.muted_users ∧ (msg1.text ≠ "" ∨ msg1.document.isSome = true) ∧
      new_events w_muted (onAnyMessage scenario env0 w_muted msg1).world =
        [Event.api (ApiCall.sendMessage msg1.chat_id mute_notice none "")
          (!env0.throws w_muted.trace.length)]) ∧
      (msg1.from_.id ∉ w0.muted_users ∧
        ∀ e ∈ new_events w0 (onAnyMessage scenario env0 w0 msg1).world,
          is_mute_notice e = false) ∧
      (msg2.from_.id ∉ w_muted.muted_users ∧
        (msg2.text ≠ "" ∨ msg2.document.isSome = true) ∧
        get_user_roles scenario msg2.from_.id = ["writer"] ∧
        target_ids_set scenario msg2.from_.id (index scenario.SENDING_ROLE_TARGETS "writer" []) =
          [3, 4, 5] ∧
        (onAnyMessage scenario env0 w_muted msg2).world =
          { (onAnyMessage scenario env0 { w_muted with muted_users := [] } msg2).world with
            muted_users := w_muted.muted_users } ∧
        forward_calls (new_events w_muted (onAnyMessage scenario env0 w_muted msg2).world) =
          [(msg2,
            target_ids_set scenario msg2.from_.id
              (index scenario.SENDING_ROLE_TARGETS "writer" []),
            "writer")]) :=
  ⟨⟨by decide, by decide,
      (mute_gate_notice scenario env0 w_muted msg1).1 (by decide) (by decide)⟩,
    ⟨by decide, (mute_gate_notice scenario env0 w0 msg1).2.2.1 (by decide)⟩,
    ⟨by decide, by decide, by decide, by decide,
      (mute_gate_notice scenario env0 w_muted msg2).2.2.2.1 (by decide),
      ((mute_gate_notice scenario env0 w_muted msg2).2.2.2.2 (by decide) (by decide)).2.1
        "writer" (by decide)⟩⟩

/-- C4: for a muted sender and any message the handler leaves
`user_data_store`, `muted_users` and the identifier counter as they were,
never enters `forward_message`, makes at most one Bot API call, and every call
it makes is the mute notice to the chat of the message, which carries no
keyboard. -/
theorem mute_gate_terminal (cfg : Config) (env : Env) (w : World) (message : Message)
    (hmute : message.from_.id ∈ w.muted_users) :
    (onAnyMessage cfg env w message).world.user_data_store = w.user_data_store ∧
      (onAnyMessage cfg env w message).world.muted_users = w.muted_users ∧
      (onAnyMessage cfg env w message).world.uuids_issued = w.uuids_issued ∧
      forward_calls (new_events w (onAnyMessage cfg env w message).world) = [] ∧
      (api_calls (new_events w (onAnyMessage cfg env w message).world)).length ≤ 1 ∧
      (∀ call ∈ api_calls (new_events w (onAnyMessage cfg env w message).world),
        call = ApiCall.sendMessage message.chat_id mute_notice none "") := by
  by_cases hcontent : message.text ≠ "" ∨ message.document.isSome = true
  · rw [new_events_muted cfg env w message hcontent hmute,
      onAnyMessage_muted cfg env w message hcontent hmute]
    simp [try_catch, api, forward_calls, api_calls]
  · have ht : message.text = "" := by
      by_contra h; exact hcontent (Or.inl h)
    have hd : message.document = none := by
      cases hdoc : message.document with
      | none => rfl
      | some d => exact absurd (Or.inr (by simp [hdoc])) hcontent
    rw [new_events_empty cfg env w message ht hd, onAnyMessage_empty cfg env w message ht hd]
    simp [done, forward_calls, api_calls]

/-- C4 at a concrete input: muted member 1 with handle `Alice` writes while
`user_data_store` has no entry for `alice`; the store stays empty. -/
theorem mute_gate_terminal_witness :
    msg1.from_.id ∈ w_muted.muted_users ∧
      store_find w_muted.user_data_store (tolower msg1.from_.username) = none ∧
      (onAnyMessage scenario env0 w_muted msg1).world.user_data_store = w_muted.user_data_store ∧
      forward_calls (new_events w_muted (onAnyMessage scenario env0 w_muted msg1).world) = [] :=
  have h := mute_gate_terminal scenario env0 w_muted msg1 (by decide)
  ⟨by decide, by decide, h.1, h.2.2.2.1⟩

/-- C5: a sender who is not muted and holds no role sends a message with text
or a document.  The handler makes exactly one Bot API call, the confirmation
question to the chat of the message with one row of two buttons, confirm and
cancel, whose callback data are `confirm_no_role:` and `cancel:` followed by
the identifier `get_uuid` returned; `forward_message` is not entered; the
identifier counter advances by one; and when the generator never repeats
itself the identifier differs from all identifiers issued before. -/
theorem no_role_feedback_prompt (cfg : Config) (env : Env) (w : World) (message : Message)
    (hcontent : message.text ≠ "" ∨ message.document.isSome = true)
    (hmute : message.from_.id ∉ w.muted_users)
    (hroles : get_user_roles cfg message.from_.id = []) :
    api_calls (new_events w (onAnyMessage cfg env w message).world) =
        [ApiCall.sendMessage message.chat_id
          "You have no roles. Do you want to send this as *anonymous feedback* to all teams?"
          (some { inlineKeyboard :=
            [[{ text := "✅ Send feedback"
                callbackData := "confirm_no_role:" ++ (get_uuid env w).1 },
              { text := "❌ Cancel"
                callbackData := "cancel:" ++ (get_uuid env w).1 }]] })
          "Markdown"] ∧
      forward_calls (new_events w (onAnyMessage cfg env w message).world) = [] ∧
      (onAnyMessage cfg env w message).world.uuids_issued = w.uuids_issued + 1 ∧
      (Function.Injective env.uuid_generate →
        ∀ k : Nat, k < w.uuids_issued → env.uuid_generate k ≠ (get_uuid env w).1) := by
  refine ⟨?_, ?_, ?_, ?_⟩
  · rw [new_events_no_role cfg env w message hcontent hmute hroles]
    simp [api_calls_append, api_calls_refresh, api_calls, no_role_keyboard, get_uuid]
  · rw [new_events_no_role cfg env w message hcontent hmute hroles]
    simp [forward_calls_append, forward_calls_refresh, forward_calls]
  · rw [onAnyMessage_no_role cfg env w message hcontent hmute hroles]
    simp [try_catch, api, get_uuid, update_user_data_uuids]
  · intro hinj k hk heq
    have : k = w.uuids_issued := hinj heq
    omega

/-- C5 at a concrete input: member 42 holds no role of `roles.h`; two
identifiers were issued before and the prompt carries the third one. -/
theorem no_role_feedback_prompt_witness :
    (msg_alice.text ≠ "" ∨ msg_alice.document.isSome = true) ∧
      msg_alice.from_.id ∉ w_muted.muted_users ∧
      get_user_roles shipped msg_alice.from_.id = [] ∧
      Function.Injective env0.uuid_generate ∧
      api_calls (new_events w_muted (onAnyMessage shipped env0 w_muted msg_alice).world) =
        [ApiCall.sendMessage 42
          "You have no roles. Do you want to send this as *anonymous feedback* to all teams?"
          (some { inlineKeyboard :=
            [[{ text := "✅ Send feedback", callbackData := "confirm_no_role:aaa" },
              { text := "❌ Cancel", callbackData := "cancel:aaa" }]] })
          "Markdown"] ∧
      forward_calls (new_events w_muted (onAnyMessage shipped env0 w_muted msg_alice).world) = [] ∧
      (∀ k : Nat, k < w_muted.uuids_issued →
        env0.uuid_generate k ≠ (get_uuid env0 w_muted).1) :=
  have hinj : Function.Injective env0.uuid_generate := by
    intro a b hab
    have h1 : List.replicate (a + 1) 'a' = List.replicate (b + 1) 'a' :=
      congrArg String.data hab
    have h2 := congrArg List.length h1
    simpa using h2
  have h := no_role_feedback_prompt shipped env0 w_muted msg_alice
    (by decide) (by decide) (by decide)
  ⟨by decide, by decide, by decide, hinj, h.1, h.2.1, h.2.2.2 hinj⟩

/-- C6, counterexample: member 1414370194 holds two roles and is not muted;
the message carries neither text nor document and the handler adds no event,
so no role-selection prompt is presented. -/
theorem multi_role_empty_message_unprompted :
    1 < (get_user_roles shipped msg_multi_empty.from_.id).length ∧
      msg_multi_empty.from_.id ∉ w0.muted_users ∧
      new_events w0 (onAnyMessage shipped env0 w0 msg_multi_empty).world = [] := by
  decide

/-- C6, amended: a sender who is not muted and holds more than one role sends a
message with text or a document.  The handler makes exactly one Bot API call,
the role-selection question to the chat of the message, with one row that holds
one button per element of `get_user_roles` (display name as text, `role:`
followed by the role as callback data) and then the cancel button;
`forward_message` is not entered; and, the keys of `ROLE_MAP` being distinct,
`get_user_roles` lists every role once and lists a role exactly when the
sender is in its id set. -/
theorem multi_role_prompt (cfg : Config) (env : Env) (w : World) (message : Message)
    (hkeys : (cfg.ROLE_MAP.map Prod.fst).Nodup)
    (hcontent : message.text ≠ "" ∨ message.document.isSome = true)
    (hmute : message.from_.id ∉ w.muted_users)
    (hmulti : 1 < (get_user_roles cfg message.from_.id).length) :
    api_calls (new_events w (onAnyMessage cfg env w message).world) =
        [ApiCall.sendMessage message.chat_id
          "You have multiple roles. Please choose which role you want to use to send this message:"
          (some { inlineKeyboard :=
            [(get_user_roles cfg message.from_.id).map
                (fun role =>
                  { text := index cfg.ROLE_DISPLAY_NAMES role ""
                    callbackData := "role:" ++ role }) ++
              [{ text := "❌ Cancel", callbackData := "cancel_role_selection" }]] })
          "Markdown"] ∧
      forward_calls (new_events w (onAnyMessage cfg env w message).world) = [] ∧
      (get_user_roles cfg message.from_.id).Nodup ∧
      (∀ role : String, role ∈ get_user_roles cfg message.from_.id ↔
        message.from_.id ∈ index cfg.ROLE_MAP role []) := by
  refine ⟨?_, ?_, nodup_get_user_roles cfg _ hkeys, ?_⟩
  · rcases hroles : get_user_roles cfg message.from_.id with _ | ⟨r1, _ | ⟨r2, rest⟩⟩
    · simp [hroles] at hmulti
    · simp [hroles] at hmulti
    · rw [new_events_multi cfg env w message r1 r2 rest hcontent hmute hroles]
      simp [api_calls_append, api_calls_refresh, api_calls, role_keyboard, role_button]
  · rcases hroles : get_user_roles cfg message.from_.id with _ | ⟨r1, _ | ⟨r2, rest⟩⟩
    · simp [hroles] at hmulti
    · simp [hroles] at hmulti
    · rw [new_events_multi cfg env w message r1 r2 rest hcontent hmute hroles]
      simp [forward_calls_append, forward_calls_refresh, forward_calls]
  · intro role
    rw [mem_get_user_roles, mem_index_iff cfg.ROLE_MAP _ _ hkeys]

/-- C6, amended, in the shipped configuration: member 1414370194 is offered
exactly `writer` and `checker_team`. -/
theorem multi_role_prompt_witness :
    (shipped.ROLE_MAP.map Prod.fst).Nodup ∧
      (msg_multi.text ≠ "" ∨ msg_multi.document.isSome = true) ∧
      msg_multi.from_.id ∉ w0.muted_users ∧
      1 < (get_user_roles shipped msg_multi.from_.id).length ∧
      api_calls (new_events w0 (onAnyMessage shipped env0 w0 msg_multi).world) =
        [ApiCall.sendMessage 1414370194
          "You have multiple roles. Please choose which role you want to use to send this message:"
          (some { inlineKeyboard :=
            [[{ text := "Writer Team", callbackData := "role:writer" },
              { text := "Editor Team", callbackData := "role:checker_team" },
              { text := "❌ Cancel", callbackData := "cancel_role_selection" }]] })
          "Markdown"] ∧
      forward_calls (new_events w0 (onAnyMessage shipped env0 w0 msg_multi).world) = [] ∧
      (∀ role : String, role ∈ get_user_roles shipped 1414370194 ↔
        role = "writer" ∨ role = "checker_team") :=
  have h := multi_role_prompt shipped env0 w0 msg_multi
    (by decide) (by decide) (by decide) (by decide)
  have hroles : get_user_roles shipped 1414370194 = ["writer", "checker_team"] := by decide
  ⟨by decide, by decide, by decide, by decide, h.1, h.2.1, by
    intro role
    rw [hroles]
    simp⟩

set_option maxRecDepth 100000 in
/-- C7, counterexample: member 1414370194 (writer and checker_team) gets the
role-selection prompt and then chooses `writer`.  Member 11111 is a recipient
of the single-role routing of `writer`, yet the callback only sends the
request to write a message: `forward_message` is never entered and no call is
addressed to anyone but the chat of the sender. -/
theorem role_callback_delivers_nothing :
    "writer" ∈ get_user_roles shipped msg_multi.from_.id ∧
      (11111 : Int) ∈ target_ids_set shipped msg_multi.from_.id
        (index shipped.SENDING_ROLE_TARGETS "writer" []) ∧
      new_events (onAnyMessage shipped env0 w0 msg_multi).world
        (onCallbackQuery shipped env0 (onAnyMessage shipped env0 w0 msg_multi).world
          { chat_id := msg_multi.chat_id, data := "role:writer" }).world =
        [Event.api (ApiCall.sendMessage 1414370194
          "Write your message for the Writer Team." none "Markdown") true] ∧
      forward_calls
        (onCallbackQuery shipped env0 (onAnyMessage shipped env0 w0 msg_multi).world
          { chat_id := msg_multi.chat_id, data := "role:writer" }).world.trace = [] := by
  decide

/-- C7, amended: after the message handler ran on a message, the callback
`role:` followed by a role adds exactly one event, the Bot API call that asks
the chat to write a message for the display name of that role; it does not
enter `forward_message` and leaves `user_data_store` unchanged. -/
theorem role_callback_prompts_only (cfg : Config) (env : Env) (w : World) (message : Message)
    (role : String) :
    new_events (onAnyMessage cfg env w message).world
        (onCallbackQuery cfg env (onAnyMessage cfg env w message).world
          { chat_id := message.chat_id, data := "role:" ++ role }).world =
        [Event.api (ApiCall.sendMessage message.chat_id
          ("Write your message for the " ++ index cfg.ROLE_DISPLAY_NAMES role "" ++ ".")
          none "Markdown")
          (!env.throws (onAnyMessage cfg env w message).world.trace.length)] ∧
      forward_calls (new_events (onAnyMessage cfg env w message).world
        (onCallbackQuery cfg env (onAnyMessage cfg env w message).world
          { chat_id := message.chat_id, data := "role:" ++ role }).world) = [] ∧
      (onCallbackQuery cfg env (onAnyMessage cfg env w message).world
          { chat_id := message.chat_id, data := "role:" ++ role }).world.user_data_store =
        (onAnyMessage cfg env w message).world.user_data_store := by
  rw [onCallbackQuery_role]
  have hnew := new_events_api env (onAnyMessage cfg env w message).world
    (onAnyMessage cfg env w message).world []
    (ApiCall.sendMessage message.chat_id
      ("Write your message for the " ++ index cfg.ROLE_DISPLAY_NAMES role "" ++ ".")
      none "Markdown") (by simp)
  rw [hnew]
  exact ⟨rfl, rfl, rfl⟩

/-- C8, counterexample: member 42 with handle `Alice` is not muted and sends a
message with neither text nor document; afterwards `user_data_store` has no
entry for `alice`. -/
theorem empty_message_not_recorded :
    msg_alice_empty.from_.username = "Alice" ∧ msg_alice_empty.from_.id = 42 ∧
      msg_alice_empty.from_.id ∉ w0.muted_users ∧
      store_find (onAnyMessage shipped env0 w0 msg_alice_empty).world.user_data_store
        (tolower "Alice") = none := by
  decide

/-- C8, amended: for a sender with a non-empty handle, after the message
handler ran on a message with text or a document from that sender, not muted,
and likewise after `onStart`, `user_data_store` maps the lower-cased handle to
the id of the sender, whatever it held before. -/
theorem identity_round_trip (cfg : Config) (env : Env) (w : World) (message : Message)
    (hname : message.from_.username ≠ "") :
    (message.from_.id ∉ w.muted_users →
      (message.text ≠ "" ∨ message.document.isSome = true) →
      store_find (onAnyMessage cfg env w message).world.user_data_store
        (tolower message.from_.username) = some message.from_.id) ∧
      store_find (onStart env w message).world.user_data_store
        (tolower message.from_.username) = some message.from_.id := by
  constructor
  · intro hmute hcontent
    rw [onAnyMessage_store cfg env w message hcontent hmute]
    exact store_find_update w message hname
  · unfold onStart
    rw [if_neg hname]
    simp [api, record, store_find_assign]

/-- C8, amended, at a concrete input: the store maps `alice` to 7; after a
message, or `/start`, from handle `Alice` with id 42, resolving `alice`
yields 42. -/
theorem identity_round_trip_witness :
    msg_alice.from_.username ≠ "" ∧
      msg_alice.from_.id ∉ w_stale.muted_users ∧
      (msg_alice.text ≠ "" ∨ msg_alice.document.isSome = true) ∧
      store_find w_stale.user_data_store "alice" = some 7 ∧
      tolower msg_alice.from_.username = "alice" ∧
      store_find (onAnyMessage shipped env0 w_stale msg_alice).world.user_data_store
        (tolower msg_alice.from_.username) = some 42 ∧
      store_find (onStart env0 w_stale msg_alice).world.user_data_store
        (tolower msg_alice.from_.username) = some 42 :=
  have h := identity_round_trip shipped env0 w_stale msg_alice (by decide)
  ⟨by decide, by decide, by decide, by decide, by decide,
    h.1 (by decide) (by decide), h.2⟩

/-- C9, counterexample: member 42 holds no role and is shown the confirmation
buttons for identifier `a`; the callback `confirm_no_role:a` is handled twice
and the second handling sends the same acknowledgment as the first, that the
feedback has been sent. -/
theorem confirm_callback_acknowledged_twice :
    api_calls (onAnyMessage shipped env0 w0 msg_alice).world.trace =
        [ApiCall.sendMessage 42
          "You have no roles. Do you want to send this as *anonymous feedback* to all teams?"
          (some { inlineKeyboard :=
            [[{ text := "✅ Send feedback", callbackData := "confirm_no_role:a" },
              { text := "❌ Cancel", callbackData := "cancel:a" }]] })
          "Markdown"] ∧
      new_events (onAnyMessage shipped env0 w0 msg_alice).world
        (onCallbackQuery shipped env0 (onAnyMessage shipped env0 w0 msg_alice).world
          { chat_id := 42, data := "confirm_no_role:a" }).world =
        [Event.api (ApiCall.sendMessage 42
          "✅ *Your anonymous feedback has been sent to all teams.*" none "Markdown") true] ∧
      new_events
        (onCallbackQuery shipped env0 (onAnyMessage shipped env0 w0 msg_alice).world
          { chat_id := 42, data := "confirm_no_role:a" }).world
        (onCallbackQuery shipped env0
          (onCallbackQuery shipped env0 (onAnyMessage shipped env0 w0 msg_alice).world
            { chat_id := 42, data := "confirm_no_role:a" }).world
          { chat_id := 42, data := "confirm_no_role:a" }).world =
        [Event.api (ApiCall.sendMessage 42
          "✅ *Your anonymous feedback has been sent to all teams.*" none "Markdown") true] := by
  decide

/-- C9, amended: for a non-empty identifier, every handling of the callback
`confirm_no_role:` followed by the identifier, the first as well as the second,
adds exactly one event, the acknowledgment that the feedback has been sent;
neither handling enters `forward_message` or changes `user_data_store`. -/
theorem confirm_callback_every_time (cfg : Config) (env : Env) (w : World) (chat : Int)
    (u : String) (hu : u ≠ "") :
    new_events w
        (onCallbackQuery cfg env w { chat_id := chat, data := "confirm_no_role:" ++ u }).world =
        [Event.api (ApiCall.sendMessage chat
          "✅ *Your anonymous feedback has been sent to all teams.*" none "Markdown")
          (!env.throws w.trace.length)] ∧
      new_events
        (onCallbackQuery cfg env w { chat_id := chat, data := "confirm_no_role:" ++ u }).world
        (onCallbackQuery cfg env
          (onCallbackQuery cfg env w { chat_id := chat, data := "confirm_no_role:" ++ u }).world
          { chat_id := chat, data := "confirm_no_role:" ++ u }).world =
        [Event.api (ApiCall.sendMessage chat
          "✅ *Your anonymous feedback has been sent to all teams.*" none "Markdown")
          (!env.throws (w.trace.length + 1))] ∧
      forward_calls
        (onCallbackQuery cfg env
          (onCallbackQuery cfg env w { chat_id := chat, data := "confirm_no_role:" ++ u }).world
          { chat_id := chat, data := "confirm_no_role:" ++ u }).world.trace =
        forward_calls w.trace ∧
      (onCallbackQuery cfg env
          (onCallbackQuery cfg env w { chat_id := chat, data := "confirm_no_role:" ++ u }).world
          { chat_id := chat, data := "confirm_no_role:" ++ u }).world.user_data_store =
        w.user_data_store := by
  simp only [onCallbackQuery_confirm _ _ _ _ u hu]
  refine ⟨?_, ?_, ?_, ?_⟩
  · exact new_events_api env w w [] _ (by simp)
  · apply new_events_append
    simp [try_catch, api]
  · simp [try_catch, api, forward_calls_append, forward_calls]
  · rfl

/-- C9, amended, at a concrete input: the callback `confirm_no_role:aaa` is
acknowledged at the first and at the second handling. -/
theorem confirm_callback_every_time_witness :
    ("aaa" : String) ≠ "" ∧
      new_events w0
        (onCallbackQuery shipped env0 w0 { chat_id := 42, data := "confirm_no_role:" ++ "aaa" }).world =
        [Event.api (ApiCall.sendMessage 42
          "✅ *Your anonymous feedback has been sent to all teams.*" none "Markdown")
          (!env0.throws w0.trace.length)] ∧
      new_events
        (onCallbackQuery shipped env0 w0 { chat_id := 42, data := "confirm_no_role:" ++ "aaa" }).world
        (onCallbackQuery shipped env0
          (onCallbackQuery shipped env0 w0
            { chat_id := 42, data := "confirm_no_role:" ++ "aaa" }).world
          { chat_id := 42, data := "confirm_no_role:" ++ "aaa" }).world =
        [Event.api (ApiCall.sendMessage 42
          "✅ *Your anonymous feedback has been sent to all teams.*" none "Markdown")
          (!env0.throws (w0.trace.length + 1))] :=
  have h := confirm_callback_every_time shipped env0 w0 42 "aaa" (by decide)
  ⟨by decide, h.1, h.2.1⟩

/-- C10: `forward_message` never leaves by an exception, whatever calls throw;
it attempts one Bot API call per entry of `target_ids`, addressed to that
entry, in list order, and nothing else; the call for entry `k` throws exactly
when the oracle says so; and when the throwing calls are those of a set
`fails` of recipients, the calls that return are those to the entries of
`target_ids` outside `fails`. -/
theorem forward_message_fan_out (cfg : Config) (env : Env) (w : World) (message : Message)
    (target_ids : List Int) (sender_role : String) :
    (forward_message cfg env w message target_ids sender_role).threw = false ∧
      (api_calls (new_events w
        (forward_message cfg env w message target_ids sender_role).world)).map ApiCall.chat =
          target_ids ∧
      (new_events w
        (forward_message cfg env w message target_ids sender_role).world).length =
          target_ids.length + 1 ∧
      (∀ (k : Nat) (hk : k < target_ids.length),
        (new_events w
          (forward_message cfg env w message target_ids sender_role).world)[k + 1]? =
            some (Event.api
              (forward_call env message (forward_caption cfg env message sender_role)
                target_ids[k])
              (!env.throws (w.trace.length + 1 + k)))) ∧
      (∀ fails : Int → Bool,
        (∀ (k : Nat) (hk : k < target_ids.length),
          env.throws (w.trace.length + 1 + k) = fails target_ids[k]) →
        delivered (new_events w
          (forward_message cfg env w message target_ids sender_role).world) =
            target_ids.filter (fun id => !fails id)) := by
  have hnew : new_events w (forward_message cfg env w message target_ids sender_role).world =
      Event.forward_message message target_ids sender_role ::
        attempts env message (forward_caption cfg env message sender_role) target_ids
          (w.trace.length + 1) := by
    apply new_events_append
    rw [forward_message_eq]
    rfl
  rw [hnew]
  refine ⟨?_, ?_, ?_, ?_, ?_⟩
  · rw [forward_message_eq]; rfl
  · rw [api_calls_forward, api_calls_attempts, map_chat_forward_call]
  · simp [attempts_length]
  · intro k hk
    rw [List.getElem?_cons_succ]
    exact attempts_getElem? env message _ target_ids (w.trace.length + 1) k hk
  · intro fails h
    rw [delivered_forward]
    exact delivered_attempts env message _ fails target_ids (w.trace.length + 1) h

/-- C10 at a concrete input: of the recipients 3, 4, 5 the call to 4 throws;
all three calls are attempted and 3 and 5 are delivered to. -/
theorem forward_message_fan_out_witness :
    (∀ (k : Nat) (hk : k < [3, 4, 5].length),
        env_fail2.throws (w0.trace.length + 1 + k) = (fun id : Int => id == 4) ([3, 4, 5][k])) ∧
      (forward_message scenario env_fail2 w0 msg1 [3, 4, 5] "writer").threw = false ∧
      (api_calls (new_events w0
        (forward_message scenario env_fail2 w0 msg1 [3, 4, 5] "writer").world)).map ApiCall.chat =
          [3, 4, 5] ∧
      delivered (new_events w0
        (forward_message scenario env_fail2 w0 msg1 [3, 4, 5] "writer").world) = [3, 5] :=
  have hf : ∀ (k : Nat) (hk : k < [3, 4, 5].length),
      env_fail2.throws (w0.trace.length + 1 + k) = (fun id : Int => id == 4) ([3, 4, 5][k]) := by
    intro k hk
    have hk3 : k < 3 := hk
    interval_cases k <;> rfl
  have h := forward_message_fan_out scenario env_fail2 w0 msg1 [3, 4, 5] "writer"
  ⟨hf, h.1, h.2.1, h.2.2.2.2 (fun id => id == 4) hf⟩

/-- C11, failing inputs: the marker `confirm_no_role:` has 16 characters and the
handler takes `data.substr(17)`.  For callback data built from a non-empty
identifier the handler therefore extracts the identifier without its first
character, for instance `bc` from `abc`, the empty string from the identifier
`a` that the no-role branch issues first in `env0`, and a 35-character rest
from a 36-character UUID; and for the data `confirm_no_role:` alone `substr`
throws, the body of the handler is left by the exception and no acknowledgment
is sent. -/
theorem confirmation_uuid_off_by_one :
    "confirm_no_role:".length = 16 ∧
      (∀ (c : Char) (rest : List Char),
        confirmation_uuid ("confirm_no_role:" ++ String.mk (c :: rest)) =
          some (String.mk rest)) ∧
      confirmation_uuid ("confirm_no_role:" ++ "abc") = some "bc" ∧
      confirmation_uuid ("confirm_no_role:" ++ (get_uuid env0 w0).1) = some "" ∧
      confirmation_uuid ("confirm_no_role:" ++ "123e4567-e89b-42d3-a456-426614174000") =
        some "23e4567-e89b-42d3-a456-426614174000" ∧
      starts_with "confirm_no_role:" "confirm_no_role:" = true ∧
      confirmation_uuid "confirm_no_role:" = none ∧
      (onCallbackQuery_body shipped env0 w0
        { chat_id := 42, data := "confirm_no_role:" }).threw = true ∧
      new_events w0
        (onCallbackQuery shipped env0 w0 { chat_id := 42, data := "confirm_no_role:" }).world =
        [] :=
  ⟨by decide, confirmation_uuid_drops_first, by decide, by decide, by decide, by decide,
    by decide, by decide, by decide⟩

/-- C12: for a sender with exactly one role `r`, every entry into
`forward_message` that the message handler makes carries the message, the
list `target_ids_set` and `r`, and that list holds no id twice. -/
theorem recipients_nodup (cfg : Config) (env : Env) (w : World) (message : Message)
    (r : String) (hrole : get_user_roles cfg message.from_.id = [r]) :
    ∀ t ∈ forward_calls (new_events w (onAnyMessage cfg env w message).world),
      t = (message,
        target_ids_set cfg message.from_.id (index cfg.SENDING_ROLE_TARGETS r []), r) ∧
      t.2.1.Nodup := by
  intro t ht
  by_cases hcontent : message.text ≠ "" ∨ message.document.isSome = true
  · by_cases hmute : message.from_.id ∈ w.muted_users
    · rw [new_events_muted cfg env w message hcontent hmute] at ht
      simp [forward_calls] at ht
    · rw [forward_calls_single cfg env w message r hcontent hmute hrole,
        List.mem_singleton] at ht
      subst ht
      exact ⟨rfl, nodup_target_ids_set cfg _ _⟩
  · have htext : message.text = "" := by
      by_contra h; exact hcontent (Or.inl h)
    have hdoc : message.document = none := by
      cases hd : message.document with
      | none => rfl
      | some d => exact absurd (Or.inr (by simp [hd])) hcontent
    rw [new_events_empty cfg env w message htext hdoc] at ht
    simp [forward_calls] at ht

set_option maxRecDepth 100000 in
/-- C12 in the shipped configuration: member 7354567 holds only `design_team`,
whose targets `tara_team` and `king_team` both contain member 6898449897; the
list handed to `forward_message` holds that member exactly once and no id
twice. -/
theorem recipients_nodup_witness :
    get_user_roles shipped msg_design.from_.id = ["design_team"] ∧
      index shipped.SENDING_ROLE_TARGETS "design_team" [] = ["tara_team", "king_team"] ∧
      (6898449897 : Int) ∈ index shipped.ROLE_MAP "tara_team" [] ∧
      (6898449897 : Int) ∈ index shipped.ROLE_MAP "king_team" [] ∧
      forward_calls (new_events w0 (onAnyMessage shipped env0 w0 msg_design).world) =
        [(msg_design,
          [137745730, 6177929931, 333135898, 6898449897, 56676, 73545678],
          "design_team")] ∧
      List.count (6898449897 : Int)
        [137745730, 6177929931, 333135898, 6898449897, 56676, 73545678] = 1 ∧
      ([137745730, 6177929931, 333135898, 6898449897, 56676, 73545678] : List Int).Nodup :=
  have hcalls : forward_calls (new_events w0 (onAnyMessage shipped env0 w0 msg_design).world) =
      [(msg_design,
        [137745730, 6177929931, 333135898, 6898449897, 56676, 73545678],
        "design_team")] := by decide
  have h := recipients_nodup shipped env0 w0 msg_design "design_team" (by decide)
    (msg_design, [137745730, 6177929931, 333135898, 6898449897, 56676, 73545678],
      "design_team")
    (by rw [hcalls]; exact List.mem_singleton.mpr rfl)
  ⟨by decide, by decide, by decide, by decide, hcalls, by decide, h.2⟩

end Relay
